import Mathlib

/-
  Verification of the BigQuery Previewer analysis trigger and concurrency
  coordinator.  The definitions below are a shallow embedding of the
  TypeScript sources: `src/utils/documentUtils.ts`, `src/services/bigQueryService.ts`,
  `src/services/analysisService.ts`, the save/close event handlers of
  `src/extension.ts`, and `src/services/selectionService.ts`.
  Machine integers are modelled as `Nat` (timestamps in milliseconds, byte
  counts, document versions); JavaScript `Map<string, number>` is modelled as an
  association list; `null`/`undefined` as `Option`; a thrown exception as
  `Except.error`.  External collaborators (the BigQuery client, the editor) are
  passed in as explicit parameters.
-/

namespace BigQueryPreviewer

/-- A VS Code text document, restricted to the fields the core reads:
stable key (resolved URI string), monotonically increasing version,
language id, file name and full text. -/
structure TextDocument where
  uri : String
  version : Nat
  languageId : String
  fileName : String
  text : String
  deriving DecidableEq, Repr

/-- A VS Code text editor, restricted to what `analyzeQuery` reads:
whether the current selection is empty and the text of the selected range
(the value of `document.getText(editor.selection)`). -/
structure TextEditor where
  selectionIsEmpty : Bool
  selectedText : String
  deriving DecidableEq, Repr

/-- The configuration fields consumed by the embedded logic
(`getConfiguration` in `configurationService.ts`; the read from the
workspace settings store is external, so a `Config` value is passed in). -/
structure Config where
  enableStatusBar : Bool
  enableNotifications : Bool
  showScanWarnings : Bool
  scanWarningThresholdMB : Nat
  autoRunOnSave : Bool
  trackDryRuns : Bool
  deriving DecidableEq, Repr

/-- Lookup in an association-list model of a JavaScript `Map<string, Nat>`.
`none` models `undefined`. -/
def mapGet (m : List (String × Nat)) (k : String) : Option Nat :=
  match m with
  | [] => none
  | (k', v) :: rest => if k' = k then some v else mapGet rest k

/-- Update in the association-list map model (`Map.set`). -/
def mapSet (m : List (String × Nat)) (k : String) (v : Nat) : List (String × Nat) :=
  match m with
  | [] => [(k, v)]
  | (k', v') :: rest => if k' = k then (k, v) :: rest else (k', v') :: mapSet rest k v

/-- Deletion in the association-list map model (`Map.delete`). -/
def mapDelete (m : List (String × Nat)) (k : String) : List (String × Nat) :=
  match m with
  | [] => []
  | (k', v') :: rest => if k' = k then mapDelete rest k else (k', v') :: mapDelete rest k

/-- Embedding of `hasDocumentChanged` (documentUtils.ts): compares the stored
version for the document key against the current version; on mismatch (or a
never-seen key, where `Map.get` yields `undefined`) stores the new version and
reports a change.  Returns the result together with the updated version map. -/
def hasDocumentChanged (m : List (String × Nat)) (uri : String) (currentVersion : Nat) :
    Bool × List (String × Nat) :=
  if mapGet m uri = some currentVersion then
    (false, m)
  else
    (true, mapSet m uri currentVersion)

/-- Embedding of `isEligibleForAnalysis` (documentUtils.ts). -/
def isEligibleForAnalysis (document : TextDocument) : Bool :=
  document.languageId == "sql" || document.fileName.endsWith ".sql"

/-- Embedding of `removeDocumentFromCache` (documentUtils.ts):
`documentVersions.delete(uri)`. -/
def removeDocumentFromCache (m : List (String × Nat)) (uri : String) :
    List (String × Nat) :=
  mapDelete m uri

/-- Result of a BigQuery dry run (`DryRunResult` in bigQueryService.ts). -/
structure DryRunResult where
  scannedBytes : Nat
  errors : List String
  deriving DecidableEq, Repr

/-- One element of the `errors` array carried by an error thrown by
`createQueryJob`. -/
structure BQErrorItem where
  message : String
  deriving DecidableEq, Repr

/-- The shape of an error thrown by the BigQuery client as read by
`performDryRun`: an optional `errors` array and a top-level `message`. -/
structure BQError where
  errs : Option (List BQErrorItem)
  message : String
  deriving DecidableEq, Repr

/-- The module-level state of bigQueryService.ts: `dryRunCount`,
`lastDryRunTime` and `isDryRunTrackingEnabled`. -/
structure DryRunState where
  dryRunCount : Nat
  lastDryRunTime : Option Nat
  isDryRunTrackingEnabled : Bool
  deriving DecidableEq, Repr

/-- Embedding of `performDryRun` (bigQueryService.ts).  The remote call
`bigquery.createQueryJob` is the parameter `createQueryJob`, returning either
the parsed `totalBytesProcessed` byte count or a thrown error.  When tracking
is enabled the counter is incremented; `lastDryRunTime` is then assigned the
current time unconditionally (the assignment sits outside the tracking
check in the source).  In the catch branch the source computes
`error.errors?.map(e => e.message) || [error.message]`; a JavaScript array is
truthy even when empty, so the `|| [error.message]` fallback applies only when
the `errors` field is absent. -/
def performDryRun (s : DryRunState) (query : String) (currentTime : Nat)
    (createQueryJob : String → Except BQError Nat) :
    DryRunResult × DryRunState :=
  let s1 := if s.isDryRunTrackingEnabled then
      { s with dryRunCount := s.dryRunCount + 1 }
    else s
  let s2 := { s1 with lastDryRunTime := some currentTime }
  match createQueryJob query with
  | Except.ok totalBytesProcessed =>
      ({ scannedBytes := totalBytesProcessed, errors := [] }, s2)
  | Except.error e =>
      let errors := match e.errs with
        | some items => items.map (fun it => it.message)
        | none => [e.message]
      ({ scannedBytes := 0, errors := errors }, s2)

/-- Snapshot returned by `getDryRunStats` (bigQueryService.ts).  The source
formats `timeSinceLast` as a string of seconds with two decimals; it is
modelled here by its determinant, the raw millisecond difference
(`none` models the "N/A" case). -/
structure DryRunStatsSnapshot where
  count : Nat
  lastRunTime : Option Nat
  timeSinceLastMs : Option Nat
  currentTime : Nat
  deriving DecidableEq, Repr

/-- Embedding of `getDryRunStats` (bigQueryService.ts): computed at call time
from the module state and the current clock. -/
def getDryRunStats (s : DryRunState) (currentTime : Nat) : DryRunStatsSnapshot :=
  { count := s.dryRunCount
    lastRunTime := s.lastDryRunTime
    timeSinceLastMs := match s.lastDryRunTime with
      | some t => some (currentTime - t)
      | none => none
    currentTime := currentTime }

/-- Embedding of `updateTrackingSettings` (bigQueryService.ts): copies the
`trackDryRuns` configuration flag into the module state. -/
def updateTrackingSettings (s : DryRunState) (config : Config) : DryRunState :=
  { s with isDryRunTrackingEnabled := config.trackDryRuns }

/-- Embedding of `resetDryRunTracking` (bigQueryService.ts). -/
def resetDryRunTracking (s : DryRunState) : DryRunState :=
  { s with dryRunCount := 0, lastDryRunTime := none }

/-- Constant `defaultWaitTimeUntilNextRun` of analysisService.ts
(5 seconds in milliseconds). -/
def defaultWaitTimeUntilNextRun : Nat := 5000

/-- Constant `waitTimeUntilNextRunForOnChange` of analysisService.ts
(10 seconds, passed by the change-debounced trigger path). -/
def waitTimeUntilNextRunForOnChange : Nat := 10000

/-- The module-level state of analysisService.ts (`isRunning`, `lastRunTime`,
`lastFullErrorMessage`) together with the `documentVersions` map of
documentUtils.ts that `analyzeQuery` reads and writes through
`hasDocumentChanged`. -/
structure AnalysisState where
  isRunning : Bool
  lastRunTime : Option Nat
  lastFullErrorMessage : Option String
  documentVersions : List (String × Nat)
  deriving DecidableEq, Repr

/-- The control-flow outcome of one `analyzeQuery` call: the early-return
taken, or `completed` when control reaches the end of the try block. -/
inductive AnalyzeOutcome where
  | noDocument
  | skippedRunning
  | skippedRateGate
  | abortedNoFeedback
  | completed
  deriving DecidableEq, Repr

/-- Embedding of `analyzeQuery` (analysisService.ts, the version with the
try/finally block).  `document = none` models a missing document (the
`if (!document)` guard); `dryRun` is the call to `performDryRun`, returning
`Except.error` when the awaited call throws (the real `performDryRun` catches
remote errors itself, but the try/finally must cover a throw as well);
`endTime` is the value of the second `Date.now()` that is stored into
`lastRunTime` at the end of the try block.  The JavaScript expression
`lastRunTime && (currentTime - lastRunTime > waitTimeToUse)` is falsy when
`lastRunTime` is `null` or `0`; natural subtraction agrees with the JavaScript
comparison because a negative difference also fails the `>` test.  The third
component counts the invocations of the dry run, and the outcome is wrapped in
`Except` so a throw propagates after the finally block resets `isRunning`. -/
def analyzeQuery (s : AnalysisState) (document : Option TextDocument)
    (editor : Option TextEditor) (waitTimeUntilNextRun : Option Nat)
    (config : Config) (currentTime : Nat)
    (dryRun : String → Except String DryRunResult) (endTime : Nat) :
    Except String AnalyzeOutcome × AnalysisState × Nat :=
  match document with
  | none => (Except.ok AnalyzeOutcome.noDocument, s, 0)
  | some doc =>
    if s.isRunning then
      (Except.ok AnalyzeOutcome.skippedRunning, s, 0)
    else
      let waitTimeToUse := waitTimeUntilNextRun.getD defaultWaitTimeUntilNextRun
      let waitTimeElapsed := match s.lastRunTime with
        | none => false
        | some t => t != 0 && decide (currentTime - t > waitTimeToUse)
      let hd := hasDocumentChanged s.documentVersions doc.uri doc.version
      let isDocumentChanged := hd.1
      let s1 := { s with documentVersions := hd.2 }
      if !waitTimeElapsed && !isDocumentChanged then
        (Except.ok AnalyzeOutcome.skippedRateGate, s1, 0)
      else if !config.enableStatusBar && !config.enableNotifications then
        (Except.ok AnalyzeOutcome.abortedNoFeedback, s1, 0)
      else
        let s2 := { s1 with isRunning := true }
        if isEligibleForAnalysis doc then
          let query := match editor with
            | some ed =>
                if !ed.selectionIsEmpty && decide (ed.selectedText.trim.length > 0) then
                  ed.selectedText
                else doc.text
            | none => doc.text
          match dryRun query with
          | Except.error exn =>
              (Except.error exn, { s2 with isRunning := false }, 1)
          | Except.ok res =>
              let joined := String.intercalate "; " res.errors
              let s3 := if decide (res.errors.length > 0) then
                  { s2 with lastFullErrorMessage := some joined }
                else
                  { s2 with lastFullErrorMessage := none }
              (Except.ok AnalyzeOutcome.completed,
                { s3 with lastRunTime := some endTime, isRunning := false }, 1)
        else
          (Except.ok AnalyzeOutcome.completed,
            { s2 with lastRunTime := some endTime, isRunning := false }, 0)

/-- The module-level state of the save-on-close detection in extension.ts:
`savingDocuments` (uri mapped to the expiry deadline of the pending 300 ms
will-save timer), `closingDocuments` (uri mapped to the expiry deadline of the
1000 ms grace window; the source keeps a `Set<string>` and an anonymous
timeout per entry), and the `documentVersions` map of the change tracker. -/
structure ExtensionState where
  savingDocuments : List (String × Nat)
  closingDocuments : List (String × Nat)
  documentVersions : List (String × Nat)
  deriving DecidableEq, Repr

/-- Embedding of the `onWillSaveTextDocument` handler (extension.ts): for an
eligible document, cancel any existing will-save timer for the uri and arm a
new 300 ms one (`mapSet` models clearTimeout of the old entry plus `Map.set`
of the new). -/
def onWillSaveTextDocument (s : ExtensionState) (now : Nat) (document : TextDocument) :
    ExtensionState :=
  if isEligibleForAnalysis document then
    { s with savingDocuments := mapSet s.savingDocuments document.uri (now + 300) }
  else s

/-- Firing of the 300 ms will-save timer for `uri` (the `setTimeout` callback
in `onWillSaveTextDocument`): the uri is forgotten from `savingDocuments`.
The runtime delivers this only once the deadline stored in the map has
passed and only while the entry is still present. -/
def fireWillSaveTimer (s : ExtensionState) (uri : String) : ExtensionState :=
  { s with savingDocuments := mapDelete s.savingDocuments uri }

/-- Embedding of the `onDidCloseTextDocument` handler (extension.ts): only
when a will-save timer is still pending for the uri, mark the uri as closing
for a 1000 ms grace window, cancel the will-save timer and remove its entry;
otherwise the handler does nothing. -/
def onDidCloseTextDocument (s : ExtensionState) (now : Nat) (uri : String) :
    ExtensionState :=
  if (mapGet s.savingDocuments uri).isSome then
    { s with
        closingDocuments := mapSet s.closingDocuments uri (now + 1000)
        savingDocuments := mapDelete s.savingDocuments uri }
  else s

/-- Firing of the 1000 ms grace-window timer armed by the close handler:
the uri is removed from `closingDocuments`. -/
def fireClosingTimer (s : ExtensionState) (uri : String) : ExtensionState :=
  { s with closingDocuments := mapDelete s.closingDocuments uri }

/-- The skip test of the `onDidSaveTextDocument` handler (extension.ts):
analysis is skipped when the uri is marked closing or a will-save timer is
still pending for it. -/
def didSaveSkips (s : ExtensionState) (uri : String) : Bool :=
  (mapGet s.closingDocuments uri).isSome || (mapGet s.savingDocuments uri).isSome

/-- The decision of the `onDidSaveTextDocument` handler (extension.ts):
`analyzeQuery` is reached exactly when the extension is active, the skip test
fails, `autoRunOnSave` is set and a visible editor for the document is found. -/
def onDidSaveRunsAnalysis (s : ExtensionState) (uri : String)
    (isExtensionActive : Bool) (config : Config) (editorFound : Bool) : Bool :=
  isExtensionActive && !(didSaveSkips s uri) && config.autoRunOnSave && editorFound

/-- Constant `selectionStabilizationDelay` of selectionService.ts (750 ms). -/
def selectionStabilizationDelay : Nat := 750

/-- Constant `maxSelectionTriggers` of selectionService.ts (cap of 5). -/
def maxSelectionTriggers : Nat := 5

/-- Constant `selectionTriggerResetTime` of selectionService.ts (1500 ms). -/
def selectionTriggerResetTime : Nat := 1500

/-- A selection, restricted to the position fields compared by
`areSelectionsEqual`. -/
structure Selection where
  anchorLine : Nat
  anchorCharacter : Nat
  activeLine : Nat
  activeCharacter : Nat
  deriving DecidableEq, Repr

/-- Embedding of `areSelectionsEqual` (documentUtils.ts). -/
def areSelectionsEqual (a b : Selection) : Bool :=
  a.anchorLine == b.anchorLine && a.anchorCharacter == b.anchorCharacter &&
  a.activeLine == b.activeLine && a.activeCharacter == b.activeCharacter

/-- The `lastSelection` record of selectionService.ts: the editor (modelled by
an identity number), the selection and the timestamp. -/
structure LastSelection where
  editorId : Nat
  selection : Selection
  timestamp : Nat
  deriving DecidableEq, Repr

/-- The module-level state of selectionService.ts: the pending stabilization
timer (as its expiry deadline), the last selection record, the rolling trigger
counter, and the deadlines of the pending count-reset timeouts scheduled by
over-cap events. -/
structure SelectionState where
  selectionAnalysisTimer : Option Nat
  lastSelection : Option LastSelection
  selectionTriggerCount : Nat
  pendingCountResets : List Nat
  deriving DecidableEq, Repr

/-- Embedding of `handleSelectionChange` (selectionService.ts).  Guards: an
inactive extension, a missing editor or an ineligible document return at once,
as does a configuration with both feedback channels disabled.  Then the
trigger counter is incremented; when it exceeds the cap, a count-reset timeout
is scheduled and the event is dropped without touching the timers.  Otherwise
any pending stabilization timer is cancelled; an empty selection clears the
last-selection record, while a non-empty one is recorded and a new 750 ms
stabilization timer is armed. -/
def handleSelectionChange (s : SelectionState) (now : Nat)
    (isExtensionActive : Bool) (editorPresent : Bool) (editorId : Nat)
    (documentEligible : Bool) (config : Config)
    (selectionIsEmpty : Bool) (selection : Selection) : SelectionState :=
  if !isExtensionActive || !editorPresent || !documentEligible then s
  else if !config.enableStatusBar && !config.enableNotifications then s
  else
    let count := s.selectionTriggerCount + 1
    if count > maxSelectionTriggers then
      { s with
          selectionTriggerCount := count
          pendingCountResets := s.pendingCountResets ++ [now + selectionTriggerResetTime] }
    else
      let s1 := { s with selectionTriggerCount := count, selectionAnalysisTimer := none }
      if selectionIsEmpty then
        { s1 with lastSelection := none }
      else
        { s1 with
            lastSelection := some { editorId := editorId, selection := selection, timestamp := now }
            selectionAnalysisTimer := some (now + selectionStabilizationDelay) }

/-- Firing of one count-reset timeout scheduled by an over-cap selection event
(the `setTimeout` callback in `handleSelectionChange`): the trigger counter is
reset to zero.  The runtime delivers this only once the recorded deadline has
passed. -/
def fireSelectionTriggerReset (s : SelectionState) (deadline : Nat) : SelectionState :=
  { s with
      selectionTriggerCount := 0
      pendingCountResets := s.pendingCountResets.erase deadline }

/-- Lookup after update at the same key yields the new value. -/
theorem mapGet_mapSet_self (m : List (String × Nat)) (k : String) (v : Nat) :
    mapGet (mapSet m k v) k = some v := by
  induction m with
  | nil => simp [mapSet, mapGet]
  | cons hd tl ih =>
    by_cases h : hd.1 = k
    · simp [mapSet, mapGet, h]
    · simp [mapSet, mapGet, h, ih]

/-- Lookup after deletion at the same key yields nothing. -/
theorem mapGet_mapDelete_self (m : List (String × Nat)) (k : String) :
    mapGet (mapDelete m k) k = none := by
  induction m with
  | nil => simp [mapDelete, mapGet]
  | cons hd tl ih =>
    by_cases h : hd.1 = k
    · simp [mapDelete, mapGet, h, ih]
    · simp [mapDelete, mapGet, h, ih]

/-- After any `hasDocumentChanged` call, the map stores the checked version. -/
theorem mapGet_hasDocumentChanged_snd (m : List (String × Nat)) (uri : String) (v : Nat) :
    mapGet (hasDocumentChanged m uri v).2 uri = some v := by
  unfold hasDocumentChanged
  by_cases h : mapGet m uri = some v
  · simp [h]
  · simp [h, mapGet_mapSet_self]

/-- C4: for any sequence of `hasDocumentChanged` calls on the same document
key: a key never seen before returns true; a call whose version equals the
previously stored one returns false and leaves the map unchanged; a call with
a strictly greater version than the stored one returns true and stores that
version; and an immediate repeat of any call with the same version returns
false. -/
theorem hasDocumentChanged_version_protocol :
    ∀ (m : List (String × Nat)) (uri : String) (v : Nat),
      (mapGet m uri = none → (hasDocumentChanged m uri v).1 = true)
      ∧ (mapGet m uri = some v → hasDocumentChanged m uri v = (false, m))
      ∧ (∀ w, mapGet m uri = some w → w < v →
          (hasDocumentChanged m uri v).1 = true
          ∧ mapGet (hasDocumentChanged m uri v).2 uri = some v)
      ∧ (hasDocumentChanged (hasDocumentChanged m uri v).2 uri v).1 = false := by
  intro m uri v
  refine ⟨?_, ?_, ?_, ?_⟩
  · intro h
    unfold hasDocumentChanged
    simp [h]
  · intro h
    unfold hasDocumentChanged
    simp [h]
  · intro w hw hlt
    have hne : mapGet m uri ≠ some v := by
      rw [hw]
      intro hc
      exact absurd (Option.some.inj hc) (Nat.ne_of_lt hlt)
    refine ⟨?_, mapGet_hasDocumentChanged_snd m uri v⟩
    unfold hasDocumentChanged
    simp [hne]
  · have hstored := mapGet_hasDocumentChanged_snd m uri v
    generalize hm : (hasDocumentChanged m uri v).2 = m2 at hstored ⊢
    unfold hasDocumentChanged
    simp [hstored]

/-- C4 witness: the protocol evaluated on concrete states: a fresh key reports
a change, a repeat of the stored version does not, and a strictly greater
version reports a change and is stored. -/
theorem hasDocumentChanged_version_protocol_witness :
    (hasDocumentChanged [] "a.sql" 1).1 = true
    ∧ hasDocumentChanged [("a.sql", 2)] "a.sql" 2 = (false, [("a.sql", 2)])
    ∧ ((hasDocumentChanged [("a.sql", 2)] "a.sql" 5).1 = true
        ∧ mapGet (hasDocumentChanged [("a.sql", 2)] "a.sql" 5).2 "a.sql" = some 5) :=
  ⟨(hasDocumentChanged_version_protocol [] "a.sql" 1).1 rfl,
   (hasDocumentChanged_version_protocol [("a.sql", 2)] "a.sql" 2).2.1 rfl,
   (hasDocumentChanged_version_protocol [("a.sql", 2)] "a.sql" 5).2.2.1 2 rfl
     (by decide)⟩

/-- C2: on every exit path of `analyzeQuery` that set `isRunning` to true —
normal completion (with or without remote-reported errors), a thrown
exception from the remote call, and the ineligible-document path — `isRunning`
is reset to false before control leaves the function; starting from a
non-running state, the state left behind is never running, whatever the
inputs and whatever the dry run returns or throws. -/
theorem analyzeQuery_releases_isRunning :
    ∀ (s : AnalysisState) (document : Option TextDocument) (editor : Option TextEditor)
      (w : Option Nat) (config : Config) (now : Nat)
      (f : String → Except String DryRunResult) (te : Nat),
      s.isRunning = false →
      ((analyzeQuery s document editor w config now f te).2.1).isRunning = false := by
  intro s document editor w config now f te h
  cases document with
  | none => exact h
  | some doc =>
    simp only [analyzeQuery, h]
    repeat' split
    all_goals simp_all

/-- C2 witness: a concrete non-running state stays non-running after a call
whose dry run throws. -/
theorem analyzeQuery_releases_isRunning_witness :
    ((analyzeQuery ⟨false, none, none, []⟩
        (some ⟨"a.sql", 1, "sql", "a.sql", "SELECT 1"⟩) none none
        ⟨true, false, true, 100, true, false⟩ 1000
        (fun _ => Except.error "network failure") 1001).2.1).isRunning = false :=
  analyzeQuery_releases_isRunning ⟨false, none, none, []⟩
    (some ⟨"a.sql", 1, "sql", "a.sql", "SELECT 1"⟩) none none
    ⟨true, false, true, 100, true, false⟩ 1000
    (fun _ => Except.error "network failure") 1001 rfl

/-- C1: a call to `analyzeQuery` made while a previous analysis is still in
flight (`isRunning` true) returns immediately as skipped, invokes the dry run
zero times and leaves the state exactly as it was (drop, not queue: nothing
is buffered for replay); and once the flag is back to false, a subsequent
call whose document changed, with status-bar feedback enabled and an eligible
document, executes normally, invoking the dry run exactly once and not being
skipped by the in-flight guard. -/
theorem analyzeQuery_single_flight :
    ∀ (s : AnalysisState) (doc : TextDocument) (editor : Option TextEditor)
      (w : Option Nat) (config : Config) (now : Nat)
      (f : String → Except String DryRunResult) (te : Nat),
      (s.isRunning = true →
        analyzeQuery s (some doc) editor w config now f te
          = (Except.ok AnalyzeOutcome.skippedRunning, s, 0))
      ∧ (s.isRunning = false →
          (hasDocumentChanged s.documentVersions doc.uri doc.version).1 = true →
          config.enableStatusBar = true →
          isEligibleForAnalysis doc = true →
          (analyzeQuery s (some doc) editor w config now f te).2.2 = 1
          ∧ (analyzeQuery s (some doc) editor w config now f te).1
              ≠ Except.ok AnalyzeOutcome.skippedRunning) := by
  intro s doc editor w config now f te
  constructor
  · intro h
    simp only [analyzeQuery, h]
    rfl
  · intro hrun hch hbar helig
    simp only [analyzeQuery, hrun, hch, hbar, helig]
    constructor
    · repeat' split
      all_goals simp_all
    · repeat' split
      all_goals simp_all

/-- C1 witness: with the flag raised the call is dropped unchanged and the
dry run is not invoked; with the flag lowered and a fresh document the dry
run is invoked exactly once. -/
theorem analyzeQuery_single_flight_witness :
    analyzeQuery ⟨true, none, none, []⟩
        (some ⟨"a.sql", 1, "sql", "a.sql", "SELECT 1"⟩) none none
        ⟨true, false, true, 100, true, false⟩ 1000 (fun _ => Except.ok ⟨42, []⟩) 1001
      = (Except.ok AnalyzeOutcome.skippedRunning, ⟨true, none, none, []⟩, 0)
    ∧ (analyzeQuery ⟨false, none, none, []⟩
        (some ⟨"a.sql", 1, "sql", "a.sql", "SELECT 1"⟩) none none
        ⟨true, false, true, 100, true, false⟩ 1000 (fun _ => Except.ok ⟨42, []⟩) 1001).2.2
      = 1 :=
  ⟨(analyzeQuery_single_flight ⟨true, none, none, []⟩
      ⟨"a.sql", 1, "sql", "a.sql", "SELECT 1"⟩ none none
      ⟨true, false, true, 100, true, false⟩ 1000 (fun _ => Except.ok ⟨42, []⟩) 1001).1 rfl,
   ((analyzeQuery_single_flight ⟨false, none, none, []⟩
      ⟨"a.sql", 1, "sql", "a.sql", "SELECT 1"⟩ none none
      ⟨true, false, true, 100, true, false⟩ 1000 (fun _ => Except.ok ⟨42, []⟩) 1001).2
      rfl rfl rfl rfl).1⟩

/-- C3 counterexample: a call with `lastRunTime = null` (never run before)
does not always proceed: with the stored document version equal to the
current one (no change) and no in-flight analysis, the rate gate skips, so
the edge-case clause of the claim is false on the code.  This state is
reachable: a first call that is aborted because both feedback channels are
disabled stores the version without setting `lastRunTime`. -/
theorem analyzeQuery_rate_gate_counterexample :
    (⟨false, none, none, [("a.sql", 1)]⟩ : AnalysisState).lastRunTime = none
    ∧ (⟨false, none, none, [("a.sql", 1)]⟩ : AnalysisState).isRunning = false
    ∧ (analyzeQuery ⟨false, none, none, [("a.sql", 1)]⟩
        (some ⟨"a.sql", 1, "sql", "a.sql", "SELECT 1"⟩) none none
        ⟨true, false, true, 100, true, false⟩ 100000
        (fun _ => Except.ok ⟨42, []⟩) 100001).1
      = Except.ok AnalyzeOutcome.skippedRateGate := by
  refine ⟨rfl, rfl, ?_⟩
  simp [analyzeQuery, hasDocumentChanged, mapGet]

/-- The reference predicate of the amended rate-gate claim: proceed exactly
when the document changed, or `lastRunTime` holds a nonzero timestamp whose
distance to now exceeds the minimum interval.  With `lastRunTime = null` the
gate therefore proceeds exactly when the document changed. -/
def rateGateReference (changed : Bool) (lastRunTime : Option Nat)
    (now minInterval : Nat) : Bool :=
  changed ||
    (match lastRunTime with
      | none => false
      | some t => t != 0 && decide (now - t > minInterval))

/-- C3 amended: for a call that passes the availability and in-flight guards,
the rate gate of `analyzeQuery` skips exactly when the reference predicate
fails — it proceeds iff the document changed or `lastRunTime` holds a nonzero
timestamp with `now - lastRunTime > minInterval`; and in the edge case
`lastRunTime = null` it proceeds exactly when the document changed. -/
theorem analyzeQuery_rate_gate :
    ∀ (s : AnalysisState) (doc : TextDocument) (editor : Option TextEditor)
      (w : Option Nat) (config : Config) (now : Nat)
      (f : String → Except String DryRunResult) (te : Nat),
      s.isRunning = false →
      ((analyzeQuery s (some doc) editor w config now f te).1
          = Except.ok AnalyzeOutcome.skippedRateGate
        ↔ rateGateReference (hasDocumentChanged s.documentVersions doc.uri doc.version).1
            s.lastRunTime now (w.getD defaultWaitTimeUntilNextRun) = false)
      ∧ (s.lastRunTime = none →
          ((analyzeQuery s (some doc) editor w config now f te).1
              = Except.ok AnalyzeOutcome.skippedRateGate
            ↔ (hasDocumentChanged s.documentVersions doc.uri doc.version).1 = false)) := by
  intro s doc editor w config now f te h
  have key : (analyzeQuery s (some doc) editor w config now f te).1
      = Except.ok AnalyzeOutcome.skippedRateGate
      ↔ rateGateReference (hasDocumentChanged s.documentVersions doc.uri doc.version).1
          s.lastRunTime now (w.getD defaultWaitTimeUntilNextRun) = false := by
    simp only [analyzeQuery, h, rateGateReference]
    constructor
    · intro hskip
      by_contra hgate
      revert hskip
      simp only [Bool.or_eq_false_iff] at hgate
      repeat' split
      all_goals simp_all
    · intro hgate
      simp only [Bool.or_eq_false_iff] at hgate
      repeat' split
      all_goals simp_all
  refine ⟨key, fun hnone => ?_⟩
  rw [key, hnone]
  cases hch : (hasDocumentChanged s.documentVersions doc.uri doc.version).1 <;>
    simp [rateGateReference]

/-- C3 amended witness: a changed document passes the gate even though the
cool-down has not elapsed, and with `lastRunTime = null` an unchanged
document is gated off. -/
theorem analyzeQuery_rate_gate_witness :
    ((analyzeQuery ⟨false, some 99000, none, []⟩
        (some ⟨"a.sql", 1, "sql", "a.sql", "SELECT 1"⟩) none none
        ⟨true, false, true, 100, true, false⟩ 100000
        (fun _ => Except.ok ⟨42, []⟩) 100001).1
      = Except.ok AnalyzeOutcome.skippedRateGate
      ↔ rateGateReference
          (hasDocumentChanged ([] : List (String × Nat)) "a.sql" 1).1
          (some 99000) 100000 5000 = false)
    ∧ ((analyzeQuery ⟨false, none, none, [("a.sql", 1)]⟩
        (some ⟨"a.sql", 1, "sql", "a.sql", "SELECT 1"⟩) none none
        ⟨true, false, true, 100, true, false⟩ 100000
        (fun _ => Except.ok ⟨42, []⟩) 100001).1
      = Except.ok AnalyzeOutcome.skippedRateGate
      ↔ (hasDocumentChanged [("a.sql", 1)] "a.sql" 1).1 = false) :=
  ⟨(analyzeQuery_rate_gate ⟨false, some 99000, none, []⟩
      ⟨"a.sql", 1, "sql", "a.sql", "SELECT 1"⟩ none none
      ⟨true, false, true, 100, true, false⟩ 100000
      (fun _ => Except.ok ⟨42, []⟩) 100001 rfl).1,
   (analyzeQuery_rate_gate ⟨false, none, none, [("a.sql", 1)]⟩
      ⟨"a.sql", 1, "sql", "a.sql", "SELECT 1"⟩ none none
      ⟨true, false, true, 100, true, false⟩ 100000
      (fun _ => Except.ok ⟨42, []⟩) 100001 rfl).2 rfl⟩

/-- C10: every `analyzeQuery` call that passes the in-flight guard (document
present, not running) leaves the change tracker storing the document's
current version — also on the rate-gate skip and the no-feedback abort
paths — so an immediately following `hasDocumentChanged` check on the
resulting state with the unchanged version reports false: a skipped or
aborted run consumes the pending change signal. -/
theorem analyzeQuery_consumes_change_signal :
    ∀ (s : AnalysisState) (doc : TextDocument) (editor : Option TextEditor)
      (w : Option Nat) (config : Config) (now : Nat)
      (f : String → Except String DryRunResult) (te : Nat),
      s.isRunning = false →
      mapGet ((analyzeQuery s (some doc) editor w config now f te).2.1).documentVersions
          doc.uri = some doc.version
      ∧ (hasDocumentChanged
            ((analyzeQuery s (some doc) editor w config now f te).2.1).documentVersions
            doc.uri doc.version).1 = false := by
  intro s doc editor w config now f te h
  have hmain : mapGet ((analyzeQuery s (some doc) editor w config now f te).2.1).documentVersions
      doc.uri = some doc.version := by
    have hstored := mapGet_hasDocumentChanged_snd s.documentVersions doc.uri doc.version
    simp only [analyzeQuery, h]
    repeat' split
    all_goals simp_all
  refine ⟨hmain, ?_⟩
  unfold hasDocumentChanged
  simp [hmain]

/-- C10 witness: an aborted run (both feedback channels disabled) on a fresh
document stores its version, and the follow-up change check reports false. -/
theorem analyzeQuery_consumes_change_signal_witness :
    mapGet ((analyzeQuery ⟨false, none, none, []⟩
        (some ⟨"a.sql", 1, "sql", "a.sql", "SELECT 1"⟩) none none
        ⟨false, false, true, 100, true, false⟩ 1000
        (fun _ => Except.ok ⟨42, []⟩) 1001).2.1).documentVersions "a.sql" = some 1
    ∧ (hasDocumentChanged ((analyzeQuery ⟨false, none, none, []⟩
        (some ⟨"a.sql", 1, "sql", "a.sql", "SELECT 1"⟩) none none
        ⟨false, false, true, 100, true, false⟩ 1000
        (fun _ => Except.ok ⟨42, []⟩) 1001).2.1).documentVersions "a.sql" 1).1 = false :=
  analyzeQuery_consumes_change_signal ⟨false, none, none, []⟩
    ⟨"a.sql", 1, "sql", "a.sql", "SELECT 1"⟩ none none
    ⟨false, false, true, 100, true, false⟩ 1000
    (fun _ => Except.ok ⟨42, []⟩) 1001 rfl

/-- C5 counterexample: a document-close event for a key present in the change
tracker leaves its version-map entry in place — the close handler performs
only its save-on-close bookkeeping (here a no-op, since no will-save timer is
pending) and never removes the key, so a closed document does retain its
entry, contradicting the claim. -/
theorem onDidClose_retains_version_entry :
    onDidCloseTextDocument ⟨[], [], [("q.sql", 3)]⟩ 7 "q.sql"
      = ⟨[], [], [("q.sql", 3)]⟩
    ∧ mapGet (onDidCloseTextDocument ⟨[], [], [("q.sql", 3)]⟩ 7 "q.sql").documentVersions
        "q.sql" = some 3 := by
  constructor <;> rfl

/-- C5 amended: the document-close handler never touches the change tracker's
version map (it performs only its save-on-close bookkeeping, and only when a
will-save timer is pending for the key); removing a closed document's entry
is provided by the separate `removeDocumentFromCache`, which does delete the
key, but is not invoked by the close handler. -/
theorem onDidClose_version_map_untouched :
    ∀ (s : ExtensionState) (now : Nat) (uri : String),
      (onDidCloseTextDocument s now uri).documentVersions = s.documentVersions
      ∧ ((mapGet s.savingDocuments uri).isSome = false →
          onDidCloseTextDocument s now uri = s)
      ∧ mapGet (removeDocumentFromCache s.documentVersions uri) uri = none := by
  intro s now uri
  refine ⟨?_, ?_, mapGet_mapDelete_self s.documentVersions uri⟩
  · unfold onDidCloseTextDocument
    split <;> rfl
  · intro hno
    unfold onDidCloseTextDocument
    simp [hno]

/-- C5 amended witness: on a concrete state with no pending will-save timer,
the close handler is the identity, and `removeDocumentFromCache` deletes the
entry. -/
theorem onDidClose_version_map_untouched_witness :
    (onDidCloseTextDocument ⟨[], [("other.sql", 99)], [("q.sql", 3)]⟩ 7 "q.sql").documentVersions
      = [("q.sql", 3)]
    ∧ onDidCloseTextDocument ⟨[], [("other.sql", 99)], [("q.sql", 3)]⟩ 7 "q.sql"
      = ⟨[], [("other.sql", 99)], [("q.sql", 3)]⟩
    ∧ mapGet (removeDocumentFromCache [("q.sql", 3)] "q.sql") "q.sql" = none :=
  ⟨(onDidClose_version_map_untouched ⟨[], [("other.sql", 99)], [("q.sql", 3)]⟩ 7 "q.sql").1,
   (onDidClose_version_map_untouched ⟨[], [("other.sql", 99)], [("q.sql", 3)]⟩ 7 "q.sql").2.1 rfl,
   (onDidClose_version_map_untouched ⟨[], [("other.sql", 99)], [("q.sql", 3)]⟩ 7 "q.sql").2.2⟩

/-- C6: starting from a state with no closing mark for the key, a will-save
event followed by a close event for the same key (before the 300 ms will-save
timer fires) makes the save-triggered analysis path skip; while a will-save
event whose timer fires un-cancelled (no close within the window) leaves the
save-triggered analysis free to proceed (extension active, `autoRunOnSave`
set and an editor found). -/
theorem save_close_disambiguation :
    ∀ (s : ExtensionState) (doc : TextDocument) (now1 : Nat) (config : Config),
      isEligibleForAnalysis doc = true →
      mapGet s.closingDocuments doc.uri = none →
      config.autoRunOnSave = true →
      (∀ now2, onDidSaveRunsAnalysis
          (onDidCloseTextDocument (onWillSaveTextDocument s now1 doc) now2 doc.uri)
          doc.uri true config true = false)
      ∧ onDidSaveRunsAnalysis (fireWillSaveTimer (onWillSaveTextDocument s now1 doc) doc.uri)
          doc.uri true config true = true := by
  intro s doc now1 config helig hclean hauto
  have hsaving : mapGet (onWillSaveTextDocument s now1 doc).savingDocuments doc.uri
      = some (now1 + 300) := by
    unfold onWillSaveTextDocument
    simp [helig, mapGet_mapSet_self]
  have hclosingSame : (onWillSaveTextDocument s now1 doc).closingDocuments
      = s.closingDocuments := by
    unfold onWillSaveTextDocument
    simp [helig]
  constructor
  · intro now2
    have hmark : mapGet (onDidCloseTextDocument (onWillSaveTextDocument s now1 doc) now2
        doc.uri).closingDocuments doc.uri = some (now2 + 1000) := by
      unfold onDidCloseTextDocument
      simp [hsaving, mapGet_mapSet_self]
    unfold onDidSaveRunsAnalysis didSaveSkips
    simp [hmark]
  · unfold onDidSaveRunsAnalysis didSaveSkips fireWillSaveTimer
    simp [hclosingSame, hclean, hauto, mapGet_mapDelete_self]

/-- C6 witness: the two scenarios on an initially empty state — save-on-close
suppressed, plain save allowed once the timer fires. -/
theorem save_close_disambiguation_witness :
    onDidSaveRunsAnalysis
        (onDidCloseTextDocument
          (onWillSaveTextDocument ⟨[], [], []⟩ 1000 ⟨"a.sql", 1, "sql", "a.sql", "SELECT 1"⟩)
          1100 "a.sql")
        "a.sql" true ⟨true, false, true, 100, true, false⟩ true = false
    ∧ onDidSaveRunsAnalysis
        (fireWillSaveTimer
          (onWillSaveTextDocument ⟨[], [], []⟩ 1000 ⟨"a.sql", 1, "sql", "a.sql", "SELECT 1"⟩)
          "a.sql")
        "a.sql" true ⟨true, false, true, 100, true, false⟩ true = true :=
  ⟨(save_close_disambiguation ⟨[], [], []⟩ ⟨"a.sql", 1, "sql", "a.sql", "SELECT 1"⟩
      1000 ⟨true, false, true, 100, true, false⟩ rfl rfl rfl).1 1100,
   (save_close_disambiguation ⟨[], [], []⟩ ⟨"a.sql", 1, "sql", "a.sql", "SELECT 1"⟩
      1000 ⟨true, false, true, 100, true, false⟩ rfl rfl rfl).2⟩

/-- C7: for the selection stabilizer, once the rolling trigger counter has
reached the cap (5), a further trigger event (all eligibility and feedback
guards passing) arms no new stabilization timer and records nothing beyond
the incremented counter and a scheduled counter reset — the event is dropped,
not queued; a scheduled reset (delivered once its 1500 ms deadline passes)
sets the counter back to zero; and from a zero counter a non-empty selection
event arms a stabilization timer normally (750 ms from the event). -/
theorem selection_storm_suppression :
    ∀ (s : SelectionState) (now : Nat) (eid : Nat) (config : Config)
      (selEmpty : Bool) (sel : Selection),
      config.enableStatusBar = true →
      s.selectionTriggerCount ≥ maxSelectionTriggers →
      (handleSelectionChange s now true true eid true config selEmpty sel
          = { s with
                selectionTriggerCount := s.selectionTriggerCount + 1
                pendingCountResets :=
                  s.pendingCountResets ++ [now + selectionTriggerResetTime] })
      ∧ (∀ d, (fireSelectionTriggerReset s d).selectionTriggerCount = 0)
      ∧ (∀ (s2 : SelectionState) (now2 : Nat), s2.selectionTriggerCount = 0 →
          (handleSelectionChange s2 now2 true true eid true config false sel).selectionAnalysisTimer
            = some (now2 + selectionStabilizationDelay)) := by
  intro s now eid config selEmpty sel hbar hcap
  refine ⟨?_, fun d => rfl, ?_⟩
  · have hover : s.selectionTriggerCount + 1 > maxSelectionTriggers := by omega
    unfold handleSelectionChange
    simp [hbar, hover]
  · intro s2 now2 hzero
    have hunder : ¬(s2.selectionTriggerCount + 1 > maxSelectionTriggers) := by
      rw [hzero]
      decide
    unfold handleSelectionChange
    simp [hbar, hunder]

/-- C7 witness: a sixth event on a saturated counter leaves the pending
stabilization timer alone and only schedules a reset; after the reset the
counter is zero and a fresh non-empty selection event arms a 750 ms timer. -/
theorem selection_storm_suppression_witness :
    handleSelectionChange ⟨some 500, none, 5, []⟩ 2000 true true 1 true
        ⟨true, false, true, 100, true, false⟩ false ⟨0, 0, 0, 9⟩
      = ⟨some 500, none, 6, [3500]⟩
    ∧ (fireSelectionTriggerReset ⟨some 500, none, 6, [3500]⟩ 3500).selectionTriggerCount = 0
    ∧ (handleSelectionChange ⟨none, none, 0, []⟩ 4000 true true 1 true
        ⟨true, false, true, 100, true, false⟩ false ⟨0, 0, 0, 9⟩).selectionAnalysisTimer
      = some 4750 :=
  ⟨(selection_storm_suppression ⟨some 500, none, 5, []⟩ 2000 1
      ⟨true, false, true, 100, true, false⟩ false ⟨0, 0, 0, 9⟩ rfl (by decide)).1,
   (selection_storm_suppression ⟨some 500, none, 6, [3500]⟩ 2000 1
      ⟨true, false, true, 100, true, false⟩ false ⟨0, 0, 0, 9⟩ rfl (by decide)).2.1 3500,
   (selection_storm_suppression ⟨some 500, none, 5, []⟩ 2000 1
      ⟨true, false, true, 100, true, false⟩ false ⟨0, 0, 0, 9⟩ rfl (by decide)).2.2
     ⟨none, none, 0, []⟩ 4000 rfl⟩

/-- C8 counterexample: when the remote job creation throws an error whose
`errors` field is a present but empty array, `performDryRun` returns
`scannedBytes = 0` with an EMPTY errors sequence (the JavaScript fallback
`|| [error.message]` does not apply because an empty array is truthy), so a
failure is not always reported through a non-empty errors sequence, and the
caller would classify this failed call as a success. -/
theorem performDryRun_empty_errors_on_failure :
    (performDryRun ⟨0, none, false⟩ "SELECT 1" 10
        (fun _ => Except.error ⟨some [], "job creation failed"⟩)).1
      = { scannedBytes := 0, errors := [] } := rfl

/-- C8 amended: `performDryRun` never throws; on remote job-creation failure
it returns `scannedBytes = 0`, with a non-empty errors sequence whenever the
thrown error carries either no `errors` array or a non-empty one (an error
carrying an empty `errors` array yields an empty sequence); on success it
returns the scanned byte count with an empty errors sequence; and the caller
(`analyzeQuery`) classifies a non-empty errors sequence as the Failed outcome
(storing the joined full error text) and an empty one as success (clearing
it). -/
theorem performDryRun_result_contract :
    ∀ (s : DryRunState) (query : String) (now : Nat)
      (f : String → Except BQError Nat),
      (∀ e, f query = Except.error e →
        (performDryRun s query now f).1.scannedBytes = 0
        ∧ (e.errs = none ∨ e.errs.getD [] ≠ [] →
            (performDryRun s query now f).1.errors ≠ []))
      ∧ (∀ b, f query = Except.ok b →
          (performDryRun s query now f).1 = { scannedBytes := b, errors := [] })
      ∧ (∀ (r : DryRunResult) (s' : AnalysisState) (doc : TextDocument)
            (config : Config) (te : Nat),
          s'.isRunning = false →
          (hasDocumentChanged s'.documentVersions doc.uri doc.version).1 = true →
          config.enableStatusBar = true →
          isEligibleForAnalysis doc = true →
          (r.errors ≠ [] →
            ((analyzeQuery s' (some doc) none none config now
                (fun _ => Except.ok r) te).2.1).lastFullErrorMessage
              = some (String.intercalate "; " r.errors))
          ∧ (r.errors = [] →
            ((analyzeQuery s' (some doc) none none config now
                (fun _ => Except.ok r) te).2.1).lastFullErrorMessage = none)) := by
  intro s query now f
  refine ⟨?_, ?_, ?_⟩
  · intro e he
    unfold performDryRun
    rw [he]
    cases herrs : e.errs with
    | none =>
      refine ⟨rfl, ?_⟩
      intro hcases
      simp [herrs]
    | some items =>
      refine ⟨rfl, ?_⟩
      intro hcases
      rcases hcases with hnone | hnonempty
      · exact absurd hnone (by simp)
      · simp only [Option.getD_some] at hnonempty
        simp [herrs, hnonempty]
  · intro b hb
    unfold performDryRun
    rw [hb]
  · intro r s' doc config te hrun hch hbar helig
    constructor
    · intro hne
      have hlen : decide (r.errors.length > 0) = true := by
        simp [List.length_pos, hne]
      simp only [analyzeQuery, hrun, hch, hbar, helig]
      repeat' split
      all_goals simp_all
    · intro hempty
      have hlen : decide (r.errors.length > 0) = false := by
        simp [hempty]
      simp only [analyzeQuery, hrun, hch, hbar, helig]
      repeat' split
      all_goals simp_all

/-- C8 amended witness: a failure with an absent errors array yields the
top-level message; a success yields the byte count; the caller stores the
joined error text for a failed result and clears it for a clean one. -/
theorem performDryRun_result_contract_witness :
    ((performDryRun ⟨0, none, false⟩ "q" 10
        (fun _ => Except.error ⟨none, "boom"⟩)).1.scannedBytes = 0
      ∧ (performDryRun ⟨0, none, false⟩ "q" 10
          (fun _ => Except.error ⟨none, "boom"⟩)).1.errors ≠ [])
    ∧ (performDryRun ⟨0, none, false⟩ "q" 10 (fun _ => Except.ok 42)).1
        = { scannedBytes := 42, errors := [] }
    ∧ ((analyzeQuery ⟨false, none, none, []⟩
          (some ⟨"a.sql", 1, "sql", "a.sql", "SELECT 1"⟩) none none
          ⟨true, false, true, 100, true, false⟩ 10
          (fun _ => Except.ok ⟨0, ["syntax error"]⟩) 11).2.1).lastFullErrorMessage
        = some (String.intercalate "; " ["syntax error"]) :=
  ⟨⟨((performDryRun_result_contract ⟨0, none, false⟩ "q" 10
        (fun _ => Except.error ⟨none, "boom"⟩)).1 ⟨none, "boom"⟩ rfl).1,
    ((performDryRun_result_contract ⟨0, none, false⟩ "q" 10
        (fun _ => Except.error ⟨none, "boom"⟩)).1 ⟨none, "boom"⟩ rfl).2 (Or.inl rfl)⟩,
   (performDryRun_result_contract ⟨0, none, false⟩ "q" 10
      (fun _ => Except.ok 42)).2.1 42 rfl,
   ((performDryRun_result_contract ⟨0, none, false⟩ "q" 10
      (fun _ => Except.ok 42)).2.2 ⟨0, ["syntax error"]⟩ ⟨false, none, none, []⟩
      ⟨"a.sql", 1, "sql", "a.sql", "SELECT 1"⟩
      ⟨true, false, true, 100, true, false⟩ 11 rfl rfl rfl rfl).1
     (by simp)⟩

/-- C9 counterexample: with tracking disabled, a `performDryRun` call still
changes the last-run timestamp reported by `getDryRunStats` — before the call
it is null, after the call it is the call time — so the recorded statistics
are not entirely unchanged: the assignment of `lastDryRunTime` sits outside
the tracking check in the source. -/
theorem performDryRun_disabled_changes_timestamp :
    (⟨0, none, false⟩ : DryRunState).isDryRunTrackingEnabled = false
    ∧ (getDryRunStats (⟨0, none, false⟩ : DryRunState) 20).lastRunTime = none
    ∧ (getDryRunStats (performDryRun ⟨0, none, false⟩ "SELECT 1" 10
        (fun _ => Except.ok 7)).2 20).lastRunTime = some 10 :=
  ⟨rfl, rfl, rfl⟩

/-- C9 amended: when the dry-run tracking feature is disabled, a
`performDryRun` call leaves the count reported by `getDryRunStats` unchanged,
but it does update the reported last-run timestamp to the call time (the
timestamp assignment is unconditional); and toggling the tracking flag via
`updateTrackingSettings` never retroactively alters the already-recorded
count. -/
theorem performDryRun_tracking_disabled_count_frame :
    ∀ (s : DryRunState) (query : String) (now : Nat)
      (f : String → Except BQError Nat) (tq : Nat) (config : Config),
      s.isDryRunTrackingEnabled = false →
      (getDryRunStats (performDryRun s query now f).2 tq).count
          = (getDryRunStats s tq).count
      ∧ (getDryRunStats (performDryRun s query now f).2 tq).lastRunTime = some now
      ∧ (updateTrackingSettings s config).dryRunCount = s.dryRunCount := by
  intro s query now f tq config h
  refine ⟨?_, ?_, rfl⟩ <;>
    (unfold performDryRun getDryRunStats; cases f query <;> simp [h])

/-- C9 amended witness: the count stays at zero across a disabled-tracking
call, the reported timestamp becomes the call time, and toggling the flag on
keeps the count. -/
theorem performDryRun_tracking_disabled_count_frame_witness :
    (getDryRunStats (performDryRun ⟨0, none, false⟩ "q" 10
        (fun _ => Except.ok 7)).2 20).count = (getDryRunStats ⟨0, none, false⟩ 20).count
    ∧ (getDryRunStats (performDryRun ⟨0, none, false⟩ "q" 10
        (fun _ => Except.ok 7)).2 20).lastRunTime = some 10
    ∧ (updateTrackingSettings ⟨0, none, false⟩
        ⟨true, false, true, 100, true, true⟩).dryRunCount = 0 :=
  performDryRun_tracking_disabled_count_frame ⟨0, none, false⟩ "q" 10
    (fun _ => Except.ok 7) 20 ⟨true, false, true, 100, true, true⟩ rfl

end BigQueryPreviewer
